import Mathlib

/-
Shallow embedding of the client-side chat session logic of the
gemini_integration repository.

Three widget variants are embedded, each from its own source file:
  * StreamUI  — src/gemini_integration/public/js/gemini_chat_ui.js
                (streaming widget: send_message, the
                frappe.realtime gemini_chat_update handler,
                send error handler, load_conversation callback,
                new chat handler)
  * UnaryUI   — src/unnamed/part_003 (unary chat page: send_message,
                chat callback with thoughts / suggestions handling,
                error handler, load_conversation callback, new chat
                handler; plus the part_002 new chat variant which
                renders the greeting through add_to_history)
  * AttachUI  — the attachment-capable variant of
                src/gemini_integration/gemini_integration/page/gemini_chat/gemini_chat.js
                (lines 521-555: send_message with file attachment)
  * PageUI    — src/page/gemini_chat/gemini_chat.js add_to_history
                (lines 184-205: positive role guard for history pushes)

DOM rendering is modelled by recording, for each chat bubble, the
markdown source string handed to the converter (showdown makeHtml and
DOMPurify are external renderers outside this repository); counters
record the number of issued network calls and sidebar refreshes.
-/

namespace GeminiChat

/-- A conversation entry as pushed by add_to_history:
{ role: role, text: text }. -/
structure Msg where
  role : String
  text : String
deriving DecidableEq, Repr

/-- JavaScript truthiness for optional strings: undefined / null and
the empty string are falsy. -/
def truthy : Option String → Option String
  | none => none
  | some s => if s = "" then none else some s

/-- The JavaScript String trim: whitespace stripped from both ends
(an executable model of the platform trim the widgets call). -/
def jsTrim (s : String) : String :=
  ⟨((s.data.dropWhile Char.isWhitespace).reverse.dropWhile Char.isWhitespace).reverse⟩

namespace StreamUI

/-- State of the streaming widget created by createGeminiChatUI in
src/gemini_integration/public/js/gemini_chat_ui.js: the module-level
mutable variables currentConversation, conversation, streaming_bubble,
full_response, the input controls, and instrumentation counters for
issued network calls and sidebar refreshes. The transcript holds the
rendered chat bubbles (role and markdown source text); streamingBubble
is the index of the bubble the realtime handler writes into. -/
structure UIState where
  currentConversation : Option String
  conversation : List Msg
  transcript : List Msg
  inputValue : String
  inputDisabled : Bool
  sendBtnVisible : Bool
  spinnerVisible : Bool
  streamingBubble : Option Nat
  fullResponse : String
  greetingShown : Bool
  networkCalls : Nat
  sidebarRefreshes : Nat
deriving DecidableEq, Repr

/-- Initial state after createGeminiChatUI ran (conversation = [],
currentConversation = null, greeting shown). -/
def init : UIState :=
  { currentConversation := none, conversation := [], transcript := []
    inputValue := "", inputDisabled := false, sendBtnVisible := true
    spinnerVisible := false, streamingBubble := none, fullResponse := ""
    greetingShown := true, networkCalls := 0, sidebarRefreshes := 0 }

/-- add_to_history of gemini_chat_ui.js (lines 277-301): removes the
greeting card, appends a bubble rendering the text, pushes
{role, text} onto the conversation array unconditionally, and returns
the new bubble (here: its index in the transcript). -/
def add_to_history (role text : String) (s : UIState) : UIState × Nat :=
  ({ s with greetingShown := false
            transcript := s.transcript ++ [⟨role, text⟩]
            conversation := s.conversation ++ [⟨role, text⟩] },
   s.transcript.length)

/-- send_message of gemini_chat_ui.js (lines 246-275): if the prompt
argument is falsy it falls back to the trimmed input value and returns
when that is empty; otherwise it appends the user message, clears and
disables the input, swaps the send button for the spinner, creates the
empty streaming bubble, resets full_response and issues the
stream_chat call. The context argument only travels with the call. -/
def send_message (promptArg context : Option String) (s : UIState) : UIState :=
  let p := match truthy promptArg with
    | none => jsTrim s.inputValue
    | some pp => pp
  if p = "" then s
  else
    let s1 := (add_to_history "user" p s).1
    let s2 := { s1 with inputValue := "", inputDisabled := true
                        sendBtnVisible := false, spinnerVisible := true }
    let r := add_to_history "gemini" "" s2
    { r.1 with streamingBubble := some r.2, fullResponse := ""
               networkCalls := r.1.networkCalls + 1 }

/-- One event on the gemini_chat_update realtime channel:
{ conversation_id?, message?, end_of_stream? }. -/
structure StreamEvent where
  conversation_id : Option String
  message : Option String
  end_of_stream : Bool
deriving DecidableEq, Repr

/-- Replace the text of the bubble at the given index (the effect of
streaming_bubble.html(...) on the transcript). -/
def setBubbleText : List Msg → Nat → String → List Msg
  | [], _, _ => []
  | b :: bs, 0, t => ⟨b.role, t⟩ :: bs
  | b :: bs, n + 1, t => b :: setBubbleText bs n t

/-- The frappe.realtime gemini_chat_update handler of
gemini_chat_ui.js (lines 225-244): records a first conversation id and
refreshes the sidebar, appends a message delta to full_response and
re-renders the streaming bubble, and on end_of_stream re-enables the
input, restores the send button and clears the streaming state. -/
def gemini_chat_update (data : StreamEvent) (s : UIState) : UIState :=
  let s1 := match truthy data.conversation_id with
    | some cid =>
        if s.currentConversation = none then
          { s with currentConversation := some cid
                   sidebarRefreshes := s.sidebarRefreshes + 1 }
        else s
    | none => s
  let s2 := match truthy data.message with
    | some m =>
        let s1a := { s1 with fullResponse := s1.fullResponse ++ m }
        match s1a.streamingBubble with
        | some idx =>
            { s1a with transcript := setBubbleText s1a.transcript idx s1a.fullResponse }
        | none => s1a
    | none => s1
  if data.end_of_stream then
    { s2 with inputDisabled := false, spinnerVisible := false
              sendBtnVisible := true, streamingBubble := none
              fullResponse := "" }
  else s2

/-- The error handler of send_message in gemini_chat_ui.js
(lines 268-274): re-enables the input, restores the send button and
appends a gemini bubble with the interpolated, unescaped reason. -/
def send_error (m : String) (s : UIState) : UIState :=
  let s1 := { s with inputDisabled := false, spinnerVisible := false
                     sendBtnVisible := true }
  (add_to_history "gemini" ("Error: " ++ m) s1).1

/-- The load_conversation callback of gemini_chat_ui.js
(lines 321-335) on a successful fetch: sets the active id, empties the
transcript, assigns the parsed log to the conversation array, then
renders each entry of that snapshot through add_to_history (which
pushes it onto the same array again), and refreshes the sidebar. -/
def load_conversation_cb (name : String) (fetched : List Msg) (s : UIState) : UIState :=
  let s1 := { s with currentConversation := some name, transcript := []
                     greetingShown := false, conversation := fetched }
  let s2 := fetched.foldl (fun st m => (add_to_history m.role m.text st).1) s1
  { s2 with sidebarRefreshes := s2.sidebarRefreshes + 1 }

/-- The new-chat click handler of gemini_chat_ui.js (lines 341-347):
clears the active id and the conversation array, empties the
transcript, shows the greeting card (plain HTML, not a Message) and
refreshes the sidebar. -/
def new_chat (s : UIState) : UIState :=
  { s with currentConversation := none, conversation := [], transcript := []
           greetingShown := true, sidebarRefreshes := s.sidebarRefreshes + 1 }

/-- Text of the bubble a streaming target index points at. -/
def targetText (t : List Msg) (o : Option Nat) : Option String :=
  o.bind fun i => t[i]?.map Msg.text

end StreamUI

namespace UnaryUI

/-- A suggestion object of a clarification response:
{ label?, doctype, name, url }. -/
structure Suggestion where
  label : Option String
  doctype : String
  name : String
  url : String
deriving DecidableEq, Repr

/-- A rendered link of the clarification list: label and url. -/
structure ClarOption where
  label : String
  url : String
deriving DecidableEq, Repr

/-- One rendered item of the unary widget transcript: a chat bubble or
the clarification container produced by render_clarification_options. -/
inductive RItem where
  | bubble (role text : String)
  | clarification (intro : String) (options : List ClarOption)
deriving DecidableEq, Repr

/-- State of the unary chat page of src/unnamed/part_003: the
module-level variables currentConversation and conversation, the
input, the rendered transcript, whether a send is awaiting its
response (the Please Wait msgprint is up), and counters for issued
chat calls and sidebar refreshes. -/
structure State where
  currentConversation : Option String
  conversation : List Msg
  transcript : List RItem
  inputValue : String
  pending : Bool
  greetingShown : Bool
  networkCalls : Nat
  sidebarRefreshes : Nat
deriving DecidableEq, Repr

/-- Initial state of the part_003 page (empty log, greeting shown). -/
def init : State :=
  { currentConversation := none, conversation := [], transcript := []
    inputValue := "", pending := false, greetingShown := true
    networkCalls := 0, sidebarRefreshes := 0 }

/-- add_to_history of part_003 (lines 379-435): removes the greeting,
appends a bubble, and pushes { role, text } onto the conversation
array unless the role is "thoughts". -/
def add_to_history (role text : String) (s : State) : State :=
  { s with greetingShown := false
           transcript := s.transcript ++ [.bubble role text]
           conversation :=
             if role = "thoughts" then s.conversation
             else s.conversation ++ [⟨role, text⟩] }

/-- send_message of part_003 (lines 282-347, up to the frappe.call):
falls back to the trimmed input when the prompt argument is falsy and
returns when that is empty; otherwise appends the user message, clears
the input, shows the waiting modal and issues the chat call. The input
is never disabled in this variant. -/
def send_message (promptArg : Option String) (s : State) : State :=
  let p := match truthy promptArg with
    | none => jsTrim s.inputValue
    | some pp => pp
  if p = "" then s
  else
    let s1 := add_to_history "user" p s
    { s1 with inputValue := "", pending := true
              networkCalls := s1.networkCalls + 1 }

/-- The duck-typed r.message of the chat endpoint: a bare string or a
structured object { thoughts?, response, suggestions?, conversation_id? }. -/
inductive ChatResult where
  | str (text : String)
  | obj (thoughts : Option String) (response : String)
        (suggestions : List Suggestion) (conversation_id : Option String)
deriving DecidableEq, Repr

/-- The rendered label of a suggestion (part_003 line 360): the label
from the backend when truthy, else the doctype-name fallback. -/
def clarLabel (opt : Suggestion) : String :=
  match truthy opt.label with
  | some l => l
  | none => opt.doctype ++ ": " ++ opt.name

/-- render_clarification_options of part_003 (lines 354-372): appends
a single clarification container (intro paragraph plus the ordered
list of label/url links) to the transcript; nothing is pushed onto the
conversation array. -/
def render_clarification_options (intro : String) (suggestions : List Suggestion)
    (s : State) : State :=
  { s with transcript :=
      s.transcript ++ [.clarification intro (suggestions.map fun o => ⟨clarLabel o, o.url⟩)] }

/-- The success callback of send_message in part_003 (lines 305-333):
hides the waiting modal; on a falsy r.message renders the
empty-response apology; on a string renders it as a gemini bubble; on
an object renders the thoughts bubble when present, then either the
clarification options (suggestions non-empty) or a normal gemini
bubble, and finally records a first conversation id and refreshes the
sidebar. -/
def chat_callback (r : Option ChatResult) (s : State) : State :=
  let s0 := { s with pending := false }
  match r with
  | none =>
      add_to_history "gemini" "Sorry, I received an empty response. Please try again." s0
  | some (.str t) =>
      if t = "" then
        add_to_history "gemini" "Sorry, I received an empty response. Please try again." s0
      else add_to_history "gemini" t s0
  | some (.obj thoughts response suggestions conversation_id) =>
      let s1 := match truthy thoughts with
        | some th => add_to_history "thoughts" th s0
        | none => s0
      let s2 :=
        if 0 < suggestions.length then
          render_clarification_options response suggestions s1
        else add_to_history "gemini" response s1
      match truthy conversation_id with
      | some cid =>
          if s2.currentConversation = none then
            { s2 with currentConversation := some cid
                      sidebarRefreshes := s2.sidebarRefreshes + 1 }
          else s2
      | none => s2

/-- Replacement for one character under the part_003 escaping. -/
def escapeChar (c : Char) : List Char :=
  if c = '<' then ['&', 'l', 't', ';']
  else if c = '>' then ['&', 'g', 't', ';']
  else [c]

/-- The two global regex replaces of the part_003 error handler
(line 340): every "<" becomes "&lt;" and every ">" becomes "&gt;"
(the replacement texts contain no angle brackets, so the two
sequential passes amount to this one character-wise pass). -/
def escape_html (t : String) : String :=
  ⟨(t.data.map escapeChar).flatten⟩

/-- The error payload the handler inspects: r.message and r.statusText. -/
structure ErrInfo where
  message : Option String
  statusText : Option String
deriving DecidableEq, Repr

/-- The fallback error text of part_003 (lines 336-337). -/
def unknown_error : String :=
  "An unknown server error occurred. Please check the console or server logs for more details."

/-- The error callback of send_message in part_003 (lines 334-345):
hides the waiting modal, picks the escaped r.message, the statusText
fallback, or the generic text, and appends one gemini bubble with the
Error: prefix. -/
def chat_error (r : Option ErrInfo) (s : State) : State :=
  let s0 := { s with pending := false }
  let msg := match r with
    | none => unknown_error
    | some e =>
        match truthy e.message with
        | some m => escape_html m
        | none =>
            match truthy e.statusText with
            | some st => "Request failed: " ++ st
            | none => unknown_error
  add_to_history "gemini" ("Error: " ++ msg) s0

/-- The load_conversation callback of part_003 (lines 476-490) on a
successful fetch: sets the active id, empties the transcript, assigns
the parsed log to the conversation array, renders each entry of that
snapshot through add_to_history (which pushes each non-thoughts entry
onto the same array again), and refreshes the sidebar. -/
def load_conversation_cb (name : String) (fetched : List Msg) (s : State) : State :=
  let s1 := { s with currentConversation := some name, transcript := []
                     greetingShown := false, conversation := fetched }
  let s2 := fetched.foldl (fun st m => add_to_history m.role m.text st) s1
  { s2 with sidebarRefreshes := s2.sidebarRefreshes + 1 }

/-- The new-chat click handler of part_003 (lines 503-510): clears the
active id and the conversation array, empties the transcript, shows
the greeting card (plain HTML injected by show_greeting, not a
Message) and refreshes the sidebar. -/
def new_chat (s : State) : State :=
  { s with currentConversation := none, conversation := [], transcript := []
           greetingShown := true, sidebarRefreshes := s.sidebarRefreshes + 1 }

/-- The new-chat click handler of src/unnamed/part_002
(lines 322-328): clears the id, array and transcript, then renders the
greeting through add_to_history — which also pushes it onto the
conversation array as a gemini entry — and refreshes the sidebar. -/
def new_chat_part002 (s : State) : State :=
  let s1 := { s with currentConversation := none, conversation := []
                     transcript := [] }
  let s2 := add_to_history "gemini" "Hello! How can I help you today?" s1
  { s2 with sidebarRefreshes := s2.sidebarRefreshes + 1 }

/-- The session-level events of the part_003 page: user sends, chat
responses and failures, loading a conversation, starting a new chat. -/
inductive Event where
  | send (prompt : Option String)
  | callback (r : Option ChatResult)
  | failure (r : Option ErrInfo)
  | load (name : String) (fetched : List Msg)
  | newChat
deriving Repr

/-- Dispatch of one event to the part_003 handlers. -/
def step : Event → State → State
  | .send p, s => send_message p s
  | .callback r, s => chat_callback r s
  | .failure r, s => chat_error r s
  | .load n f, s => load_conversation_cb n f s
  | .newChat, s => new_chat s

/-- A whole session: the fold of step over an event sequence. -/
def run (es : List Event) (s : State) : State :=
  es.foldl (fun st e => step e st) s

end UnaryUI

namespace AttachUI

/-- A rendered bubble of the attachment-capable variant: role, text
and the optional attached image url. -/
structure ABubble where
  role : String
  text : String
  file_url : Option String
deriving DecidableEq, Repr

/-- State of the attachment-capable variant of
src/gemini_integration/gemini_integration/page/gemini_chat/gemini_chat.js
(lines 407-594): the conversation array, the input, the pending
attachment url and its preview, and a counter of issued chat calls. -/
structure State where
  conversation : List Msg
  transcript : List ABubble
  inputValue : String
  current_file_url : Option String
  attachment_preview : Option String
  networkCalls : Nat
deriving DecidableEq, Repr

/-- Initial state of the attachment-capable page. -/
def init : State :=
  { conversation := [], transcript := [], inputValue := ""
    current_file_url := none, attachment_preview := none, networkCalls := 0 }

/-- add_to_history of that variant (lines 557-578): appends a bubble
(with the optional attachment image) and pushes { role, text } onto
the conversation array unconditionally. -/
def add_to_history (role text : String) (file_url : Option String) (s : State) : State :=
  { s with transcript := s.transcript ++ [⟨role, text, file_url⟩]
           conversation := s.conversation ++ [⟨role, text⟩] }

/-- send_message of that variant (lines 521-555): trims the input,
returns when it is empty and no attachment url is present; otherwise
appends the user message with the attachment, clears the input and the
preview, issues the chat call and resets current_file_url. -/
def send_message (s : State) : State :=
  let prompt := jsTrim s.inputValue
  if prompt = "" ∧ truthy s.current_file_url = none then s
  else
    let s1 := add_to_history "user" prompt s.current_file_url s
    { s1 with inputValue := "", attachment_preview := none
              networkCalls := s1.networkCalls + 1, current_file_url := none }

end AttachUI

namespace PageUI

/-- State of the search-enabled page of
src/page/gemini_chat/gemini_chat.js: its conversation array and
transcript. -/
structure State where
  conversation : List Msg
  transcript : List Msg
deriving DecidableEq, Repr

/-- add_to_history of src/page/gemini_chat/gemini_chat.js
(lines 184-205): appends the bubble, and pushes { role, text } onto
the conversation array only for the user and gemini roles (thought
entries are rendered but kept out of the history). -/
def add_to_history (role text : String) (s : State) : State :=
  { s with transcript := s.transcript ++ [⟨role, text⟩]
           conversation :=
             if role = "user" ∨ role = "gemini" then s.conversation ++ [⟨role, text⟩]
             else s.conversation }

end PageUI

/-- The roles a persisted conversation entry may carry. -/
def persistedRole (m : Msg) : Prop :=
  m.role = "user" ∨ m.role = "gemini"

/-- Session events whose payload re-injects only persisted roles (only
loading a conversation carries fetched messages). -/
def eventOk : UnaryUI.Event → Prop
  | .load _ fetched => ∀ m ∈ fetched, persistedRole m
  | _ => True

/-! Helper lemmas shared by the claim theorems. -/

@[simp]
theorem truthy_none : truthy none = none := rfl

theorem truthy_some {p : String} (hp : p ≠ "") : truthy (some p) = some p := by
  simp [truthy, hp]

theorem send_message_some_fields (s : StreamUI.UIState) (p : String) (c : Option String)
    (hp : p ≠ "") :
    (StreamUI.send_message (some p) c s).conversation
        = s.conversation ++ [⟨"user", p⟩, ⟨"gemini", ""⟩] ∧
    (StreamUI.send_message (some p) c s).transcript
        = s.transcript ++ [⟨"user", p⟩, ⟨"gemini", ""⟩] ∧
    (StreamUI.send_message (some p) c s).streamingBubble = some (s.transcript.length + 1) ∧
    (StreamUI.send_message (some p) c s).fullResponse = "" ∧
    (StreamUI.send_message (some p) c s).inputValue = "" ∧
    (StreamUI.send_message (some p) c s).inputDisabled = true ∧
    (StreamUI.send_message (some p) c s).networkCalls = s.networkCalls + 1 := by
  refine ⟨?_, ?_, ?_, ?_, ?_, ?_, ?_⟩ <;>
    simp [StreamUI.send_message, truthy, hp, StreamUI.add_to_history]

theorem send_message_empty_input (s : StreamUI.UIState) (c : Option String)
    (h : jsTrim s.inputValue = "") : StreamUI.send_message none c s = s := by
  simp [StreamUI.send_message, h]

theorem unary_send_empty_input (t : UnaryUI.State) (h : jsTrim t.inputValue = "") :
    UnaryUI.send_message none t = t := by
  simp [UnaryUI.send_message, h]

/-! Claim theorems. -/

/-- C9 counterexample: in the part_002 variant the new-chat handler
renders the greeting through add_to_history, so after it runs the
conversation array holds the greeting as a gemini Message and is not
empty, contradicting the claim that the array always has length 0. -/
theorem c9_counterexample :
    (UnaryUI.new_chat_part002 UnaryUI.init).conversation
        = [⟨"gemini", "Hello! How can I help you today?"⟩] ∧
    (UnaryUI.new_chat_part002 UnaryUI.init).conversation ≠ [] := by
  constructor
  · decide
  · decide

/-- C9 amended: starting a new chat clears the active id, the
conversation array and the transcript in the gemini_chat_ui.js and
part_003 widgets, where the greeting is a plain HTML placeholder; in
the part_002 variant the greeting is appended through add_to_history
and therefore ends up in the conversation array as its single gemini
entry. -/
theorem c9_new_chat (s : StreamUI.UIState) (t u : UnaryUI.State) :
    (StreamUI.new_chat s).currentConversation = none ∧
    (StreamUI.new_chat s).conversation = [] ∧
    (StreamUI.new_chat s).transcript = [] ∧
    (StreamUI.new_chat s).greetingShown = true ∧
    (UnaryUI.new_chat t).currentConversation = none ∧
    (UnaryUI.new_chat t).conversation = [] ∧
    (UnaryUI.new_chat t).transcript = [] ∧
    (UnaryUI.new_chat t).greetingShown = true ∧
    (UnaryUI.new_chat_part002 u).currentConversation = none ∧
    (UnaryUI.new_chat_part002 u).conversation
        = [⟨"gemini", "Hello! How can I help you today?"⟩] := by
  refine ⟨?_, ?_, ?_, ?_, ?_, ?_, ?_, ?_, ?_, ?_⟩ <;>
    simp [StreamUI.new_chat, UnaryUI.new_chat, UnaryUI.new_chat_part002,
      UnaryUI.add_to_history]

/-- C1 counterexample: in the part_003 widget a send leaves the
session awaiting a response, yet a second send_message invocation with
a non-empty prompt is neither rejected nor ignored: it appends a
second user Message and issues a second network call while the first
is still unresolved. -/
theorem c1_counterexample :
    (UnaryUI.send_message (some "hi") UnaryUI.init).pending = true ∧
    (UnaryUI.send_message (some "again")
        (UnaryUI.send_message (some "hi") UnaryUI.init)).networkCalls = 2 ∧
    (UnaryUI.send_message (some "again")
        (UnaryUI.send_message (some "hi") UnaryUI.init)).conversation
      = [⟨"user", "hi"⟩, ⟨"user", "again"⟩] := by
  refine ⟨?_, ?_, ?_⟩ <;> decide

/-- C1 amended: in the streaming widget a send disables and clears the
input for the duration of the turn, so a second invocation that reads
the input box (no prompt argument) is ignored; but no variant checks
the session state itself: a second invocation carrying a non-empty
prompt while the first send is unresolved appends a user Message and
issues a second network call (and the part_003 unary widget does not
even disable the input). -/
theorem c1_single_flight (s : StreamUI.UIState) (p q : String) (c c2 c3 : Option String)
    (hp : p ≠ "") (hq : q ≠ "") :
    (StreamUI.send_message (some p) c s).inputDisabled = true ∧
    (StreamUI.send_message (some p) c s).inputValue = "" ∧
    StreamUI.send_message none c2 (StreamUI.send_message (some p) c s)
        = StreamUI.send_message (some p) c s ∧
    (StreamUI.send_message (some q) c3 (StreamUI.send_message (some p) c s)).networkCalls
        = (StreamUI.send_message (some p) c s).networkCalls + 1 ∧
    (StreamUI.send_message (some q) c3 (StreamUI.send_message (some p) c s)).conversation
        = (StreamUI.send_message (some p) c s).conversation ++ [⟨"user", q⟩, ⟨"gemini", ""⟩] := by
  obtain ⟨h1, h2, h3, h4, h5, h6, h7⟩ := send_message_some_fields s p c hp
  refine ⟨h6, h5, ?_, ?_, ?_⟩
  · exact send_message_empty_input _ c2 (by rw [h5]; rfl)
  · exact (send_message_some_fields _ q c3 hq).2.2.2.2.2.2
  · exact (send_message_some_fields _ q c3 hq).1

/-- C1 witness: the amended statement holds at a concrete double send. -/
theorem c1_single_flight_witness :
    ("hi" : String) ≠ "" ∧ ("again" : String) ≠ "" ∧
    (StreamUI.send_message (some "again") none
        (StreamUI.send_message (some "hi") none StreamUI.init)).networkCalls
      = (StreamUI.send_message (some "hi") none StreamUI.init).networkCalls + 1 :=
  ⟨by decide, by decide,
    (c1_single_flight StreamUI.init "hi" "again" none none none (by decide)
      (by decide)).2.2.2.1⟩

/-- C6 counterexample: send_message of gemini_chat_ui.js trims only
the fallback read from the input box; an explicit whitespace prompt
argument is truthy, so sendMessage with the three-space prompt appends
a user Message and issues a network call even though the prompt is
empty after trimming. -/
theorem c6_counterexample :
    jsTrim "   " = "" ∧
    (StreamUI.send_message (some "   ") none StreamUI.init).networkCalls = 1 ∧
    (StreamUI.send_message (some "   ") none StreamUI.init).conversation
      = [⟨"user", "   "⟩, ⟨"gemini", ""⟩] := by
  refine ⟨?_, ?_, ?_⟩ <;> decide

/-- C6 amended: when sendMessage falls back to the input box (absent
or empty prompt argument) a prompt that is empty after trimming issues
no network call, appends nothing and leaves the state unchanged, in
the streaming, unary and attachment variants alike; in the attachment
variant an empty prompt with an attachment present is permitted and
does issue the call. Only an explicit non-empty whitespace prompt
argument bypasses the guard. -/
theorem c6_empty_prompt (s : StreamUI.UIState) (c : Option String) (t : UnaryUI.State)
    (a b : AttachUI.State) (u : String)
    (hs : jsTrim s.inputValue = "") (ht : jsTrim t.inputValue = "")
    (ha : jsTrim a.inputValue = "") (hna : truthy a.current_file_url = none)
    (hb : jsTrim b.inputValue = "") (hyb : truthy b.current_file_url = some u) :
    StreamUI.send_message none c s = s ∧
    UnaryUI.send_message none t = t ∧
    AttachUI.send_message a = a ∧
    (AttachUI.send_message b).networkCalls = b.networkCalls + 1 ∧
    (AttachUI.send_message b).conversation = b.conversation ++ [⟨"user", ""⟩] := by
  refine ⟨send_message_empty_input s c hs, unary_send_empty_input t ht, ?_, ?_, ?_⟩ <;>
    simp [AttachUI.send_message, AttachUI.add_to_history, ha, hna, hb, hyb]

/-- C6 witness: the amended statement holds at concrete states. -/
theorem c6_empty_prompt_witness :
    jsTrim StreamUI.init.inputValue = "" ∧
    (AttachUI.send_message
        { AttachUI.init with current_file_url := some "/files/x.png" }).networkCalls
      = { AttachUI.init with current_file_url := some "/files/x.png" }.networkCalls + 1 :=
  ⟨by decide,
    (c6_empty_prompt StreamUI.init none UnaryUI.init AttachUI.init
        { AttachUI.init with current_file_url := some "/files/x.png" } "/files/x.png"
        (by decide) (by decide) (by decide) (by decide) (by decide)
        (by decide)).2.2.2.1⟩

/-- C5 counterexample: the streaming widget error handler interpolates
the failure reason into the bubble text without escaping, so a reason
containing markup yields the text Error: <b> verbatim, which is not
the HTML-escaped form the claim requires. -/
theorem c5_counterexample :
    (StreamUI.send_error "<b>"
        (StreamUI.send_message (some "hi") none StreamUI.init)).conversation
      = [⟨"user", "hi"⟩, ⟨"gemini", ""⟩, ⟨"gemini", "Error: <b>"⟩] ∧
    ("Error: <b>" : String) ≠ "Error: " ++ UnaryUI.escape_html "<b>" := by
  refine ⟨?_, ?_⟩ <;> decide

/-- C5 amended: a failed send appends exactly one new gemini bubble
with the Error: prefix, returns the session to IDLE and neither
retries nor rolls back the appended user Message; the part_003 unary
widget escapes only the angle brackets of the reason, while the
gemini_chat_ui.js streaming widget inserts the reason verbatim. -/
theorem c5_error_bubble (t : UnaryUI.State) (m : String) (s : StreamUI.UIState)
    (hm : m ≠ "") :
    (UnaryUI.chat_error (some ⟨some m, none⟩) t).pending = false ∧
    (UnaryUI.chat_error (some ⟨some m, none⟩) t).conversation
        = t.conversation ++ [⟨"gemini", "Error: " ++ UnaryUI.escape_html m⟩] ∧
    (UnaryUI.chat_error (some ⟨some m, none⟩) t).networkCalls = t.networkCalls ∧
    (StreamUI.send_error m s).inputDisabled = false ∧
    (StreamUI.send_error m s).conversation
        = s.conversation ++ [⟨"gemini", "Error: " ++ m⟩] ∧
    (StreamUI.send_error m s).networkCalls = s.networkCalls := by
  refine ⟨?_, ?_, ?_, ?_, ?_, ?_⟩ <;>
    simp [UnaryUI.chat_error, truthy, hm, UnaryUI.add_to_history,
      StreamUI.send_error, StreamUI.add_to_history]

theorem string_foldl_append (l : List String) :
    ∀ a b : String, l.foldl (fun r s => r ++ s) (a ++ b) = a ++ l.foldl (fun r s => r ++ s) b := by
  induction l with
  | nil => intro a b; rfl
  | cons c cs ih =>
      intro a b
      simp only [List.foldl_cons, String.append_assoc]
      exact ih a (b ++ c)

theorem join_cons (c : String) (cs : List String) :
    String.join (c :: cs) = c ++ String.join cs := by
  show (c :: cs).foldl (fun r s => r ++ s) "" = c ++ cs.foldl (fun r s => r ++ s) ""
  rw [List.foldl_cons, String.empty_append]
  have h := string_foldl_append cs c ""
  rwa [String.append_empty] at h

theorem get_setBubbleText (l : List Msg) (i : Nat) (t : String) :
    (StreamUI.setBubbleText l i t)[i]? = l[i]?.map fun b => ⟨b.role, t⟩ := by
  induction l generalizing i with
  | nil => simp [StreamUI.setBubbleText]
  | cons b bs ih =>
      cases i with
      | zero => simp [StreamUI.setBubbleText]
      | succ n => simpa [StreamUI.setBubbleText] using ih n

theorem update_conversation (d : StreamUI.StreamEvent) (s : StreamUI.UIState) :
    (StreamUI.gemini_chat_update d s).conversation = s.conversation := by
  simp only [StreamUI.gemini_chat_update]
  cases truthy d.conversation_id <;> cases truthy d.message <;>
    cases d.end_of_stream <;> repeat' first | rfl | split

/-- The accumulation invariant of the realtime handler: folding
message-only chunk events over a state whose streaming bubble shows
the current full_response leaves the target in place, appends the
chunks to full_response and keeps the bubble text equal to it. -/
theorem stream_accum (chunks : List String) :
    ∀ (s : StreamUI.UIState) (idx : Nat),
      s.streamingBubble = some idx →
      s.transcript[idx]? = some ⟨"gemini", s.fullResponse⟩ →
      (chunks.foldl (fun st ch => StreamUI.gemini_chat_update ⟨none, some ch, false⟩ st)
          s).streamingBubble = some idx ∧
      (chunks.foldl (fun st ch => StreamUI.gemini_chat_update ⟨none, some ch, false⟩ st)
          s).fullResponse = s.fullResponse ++ String.join chunks ∧
      (chunks.foldl (fun st ch => StreamUI.gemini_chat_update ⟨none, some ch, false⟩ st)
          s).transcript[idx]?
        = some ⟨"gemini", s.fullResponse ++ String.join chunks⟩ := by
  induction chunks with
  | nil =>
      intro s idx h1 h2
      refine ⟨h1, by simp [String.join], ?_⟩
      simpa [String.join] using h2
  | cons ch cs ih =>
      intro s idx h1 h2
      by_cases hch : ch = ""
      · subst hch
        have hu : StreamUI.gemini_chat_update ⟨none, some "", false⟩ s = s := by
          simp [StreamUI.gemini_chat_update, truthy]
        simp only [List.foldl_cons, hu, join_cons, String.empty_append]
        exact ih s idx h1 h2
      · have hu1 : (StreamUI.gemini_chat_update ⟨none, some ch, false⟩ s).streamingBubble
            = some idx := by
          simp [StreamUI.gemini_chat_update, truthy, hch, h1]
        have hu2 : (StreamUI.gemini_chat_update ⟨none, some ch, false⟩ s).fullResponse
            = s.fullResponse ++ ch := by
          simp [StreamUI.gemini_chat_update, truthy, hch, h1]
        have hu3 : (StreamUI.gemini_chat_update ⟨none, some ch, false⟩ s).transcript[idx]?
            = some ⟨"gemini", s.fullResponse ++ ch⟩ := by
          simp [StreamUI.gemini_chat_update, truthy, hch, h1, get_setBubbleText, h2]
        obtain ⟨g1, g2, g3⟩ := ih (StreamUI.gemini_chat_update ⟨none, some ch, false⟩ s) idx hu1
          (by rw [hu3, hu2])
        rw [List.foldl_cons]
        refine ⟨g1, ?_, ?_⟩
        · rw [g2, hu2, join_cons, String.append_assoc]
        · rw [g3, hu2, join_cons, String.append_assoc]

theorem get_append_two (l : List Msg) (a b : Msg) :
    (l ++ [a, b])[l.length + 1]? = some b := by
  rw [List.getElem?_append_right (by omega)]
  simp

/-- C2: for chunks delivered in order for one turn, the accumulated
full_response and the rendered text of the streaming target bubble
both equal the left-to-right concatenation of the chunk payloads. -/
theorem c2_stream_accumulation (s : StreamUI.UIState) (p : String) (c : Option String)
    (chunks : List String) (hp : p ≠ "") :
    (chunks.foldl (fun st ch => StreamUI.gemini_chat_update ⟨none, some ch, false⟩ st)
        (StreamUI.send_message (some p) c s)).fullResponse = String.join chunks ∧
    StreamUI.targetText
        (chunks.foldl (fun st ch => StreamUI.gemini_chat_update ⟨none, some ch, false⟩ st)
          (StreamUI.send_message (some p) c s)).transcript
        (chunks.foldl (fun st ch => StreamUI.gemini_chat_update ⟨none, some ch, false⟩ st)
          (StreamUI.send_message (some p) c s)).streamingBubble
      = some (String.join chunks) := by
  obtain ⟨h1, h2, h3, h4, h5, h6, h7⟩ := send_message_some_fields s p c hp
  have hb : (StreamUI.send_message (some p) c s).transcript[s.transcript.length + 1]?
      = some ⟨"gemini", (StreamUI.send_message (some p) c s).fullResponse⟩ := by
    rw [h2, h4, get_append_two]
  obtain ⟨g1, g2, g3⟩ := stream_accum chunks (StreamUI.send_message (some p) c s)
    (s.transcript.length + 1) h3 hb
  rw [h4, String.empty_append] at g2 g3
  exact ⟨g2, by simp [StreamUI.targetText, g1, g3]⟩

/-- C2 witness: the chunks Hel, lo-comma-space, world accumulate to
exactly Hello-comma-space-world. -/
theorem c2_stream_accumulation_witness :
    ("hi" : String) ≠ "" ∧
    String.join ["Hel", "lo, ", "world"] = "Hello, world" ∧
    ((["Hel", "lo, ", "world"] : List String).foldl
        (fun st ch => StreamUI.gemini_chat_update ⟨none, some ch, false⟩ st)
        (StreamUI.send_message (some "hi") none StreamUI.init)).fullResponse
      = String.join ["Hel", "lo, ", "world"] :=
  ⟨by decide, by decide,
    (c2_stream_accumulation StreamUI.init "hi" none ["Hel", "lo, ", "world"]
      (by decide)).1⟩

/-- C10: the realtime handler never writes to the conversation array,
so after a streamed turn the entry recorded for the assistant at send
time still has empty text no matter which stream events arrived. -/
theorem c10_streamed_entry_stays_empty (s : StreamUI.UIState) (p : String)
    (c : Option String) (events : List StreamUI.StreamEvent) (hp : p ≠ "") :
    (events.foldl (fun st d => StreamUI.gemini_chat_update d st)
        (StreamUI.send_message (some p) c s)).conversation
      = s.conversation ++ [⟨"user", p⟩, ⟨"gemini", ""⟩] := by
  have hfold : ∀ (es : List StreamUI.StreamEvent) (t : StreamUI.UIState),
      (es.foldl (fun st d => StreamUI.gemini_chat_update d st) t).conversation
        = t.conversation := by
    intro es
    induction es with
    | nil => intro t; rfl
    | cons e es ih => intro t; rw [List.foldl_cons, ih, update_conversation]
  rw [hfold, (send_message_some_fields s p c hp).1]

/-- C10 witness: a concrete streamed turn leaves the conversation
array with the empty-text gemini entry. -/
theorem c10_streamed_entry_stays_empty_witness :
    ("hi" : String) ≠ "" ∧
    (([⟨none, some "Hel", false⟩, ⟨none, some "lo", true⟩] :
          List StreamUI.StreamEvent).foldl
        (fun st d => StreamUI.gemini_chat_update d st)
        (StreamUI.send_message (some "hi") none StreamUI.init)).conversation
      = StreamUI.init.conversation ++ [⟨"user", "hi"⟩, ⟨"gemini", ""⟩] :=
  ⟨by decide,
    c10_streamed_entry_stays_empty StreamUI.init "hi" none
      [⟨none, some "Hel", false⟩, ⟨none, some "lo", true⟩] (by decide)⟩

theorem update_end_of_stream (d : StreamUI.StreamEvent) (s : StreamUI.UIState)
    (h : d.end_of_stream = true) :
    (StreamUI.gemini_chat_update d s).inputDisabled = false ∧
    (StreamUI.gemini_chat_update d s).fullResponse = "" ∧
    (StreamUI.gemini_chat_update d s).streamingBubble = none := by
  simp [StreamUI.gemini_chat_update, h]

theorem update_record_id (d : StreamUI.StreamEvent) (s : StreamUI.UIState) (cid : String)
    (h : truthy d.conversation_id = some cid) :
    (s.currentConversation = none →
        (StreamUI.gemini_chat_update d s).currentConversation = some cid ∧
        (StreamUI.gemini_chat_update d s).sidebarRefreshes = s.sidebarRefreshes + 1) ∧
    (s.currentConversation ≠ none →
        (StreamUI.gemini_chat_update d s).currentConversation = s.currentConversation ∧
        (StreamUI.gemini_chat_update d s).sidebarRefreshes = s.sidebarRefreshes) := by
  constructor
  · intro hc
    simp only [StreamUI.gemini_chat_update, h, hc, if_pos]
    cases truthy d.message <;> cases hb : s.streamingBubble <;>
      cases d.end_of_stream <;> simp [hb]
  · intro hc
    simp only [StreamUI.gemini_chat_update, h, if_neg hc]
    cases truthy d.message <;> cases hb : s.streamingBubble <;>
      cases d.end_of_stream <;> simp [hb]

theorem callback_record_id (t : UnaryUI.State) (th : Option String) (resp : String)
    (suggs : List UnaryUI.Suggestion) (cidArg : Option String) (cid : String)
    (h : truthy cidArg = some cid) :
    (t.currentConversation = none →
        (UnaryUI.chat_callback (some (.obj th resp suggs cidArg)) t).currentConversation
            = some cid ∧
        (UnaryUI.chat_callback (some (.obj th resp suggs cidArg)) t).sidebarRefreshes
            = t.sidebarRefreshes + 1) ∧
    (t.currentConversation ≠ none →
        (UnaryUI.chat_callback (some (.obj th resp suggs cidArg)) t).currentConversation
            = t.currentConversation ∧
        (UnaryUI.chat_callback (some (.obj th resp suggs cidArg)) t).sidebarRefreshes
            = t.sidebarRefreshes) := by
  constructor
  · intro hc
    simp only [UnaryUI.chat_callback, h]
    cases truthy th <;> by_cases hl : 0 < suggs.length <;>
      simp [hl, hc, UnaryUI.add_to_history, UnaryUI.render_clarification_options]
  · intro hc
    simp only [UnaryUI.chat_callback, h]
    cases truthy th <;> by_cases hl : 0 < suggs.length <;>
      simp [hl, hc, UnaryUI.add_to_history, UnaryUI.render_clarification_options]

/-- C7: an end_of_stream event re-enables the input and clears the
streaming state (full_response emptied, target bubble detached); and
any stream event or unary response carrying a conversation id records
it and refreshes the sidebar exactly when the active id was previously
null — an already-set id is never overwritten and triggers no
refresh. -/
theorem c7_end_stream_and_conversation_id :
    (∀ (d : StreamUI.StreamEvent) (s : StreamUI.UIState), d.end_of_stream = true →
        (StreamUI.gemini_chat_update d s).inputDisabled = false ∧
        (StreamUI.gemini_chat_update d s).fullResponse = "" ∧
        (StreamUI.gemini_chat_update d s).streamingBubble = none) ∧
    (∀ (d : StreamUI.StreamEvent) (s : StreamUI.UIState) (cid : String),
        truthy d.conversation_id = some cid →
        (s.currentConversation = none →
            (StreamUI.gemini_chat_update d s).currentConversation = some cid ∧
            (StreamUI.gemini_chat_update d s).sidebarRefreshes = s.sidebarRefreshes + 1) ∧
        (s.currentConversation ≠ none →
            (StreamUI.gemini_chat_update d s).currentConversation = s.currentConversation ∧
            (StreamUI.gemini_chat_update d s).sidebarRefreshes = s.sidebarRefreshes)) ∧
    (∀ (t : UnaryUI.State) (th : Option String) (resp : String)
        (suggs : List UnaryUI.Suggestion) (cidArg : Option String) (cid : String),
        truthy cidArg = some cid →
        (t.currentConversation = none →
            (UnaryUI.chat_callback (some (.obj th resp suggs cidArg)) t).currentConversation
                = some cid ∧
            (UnaryUI.chat_callback (some (.obj th resp suggs cidArg)) t).sidebarRefreshes
                = t.sidebarRefreshes + 1) ∧
        (t.currentConversation ≠ none →
            (UnaryUI.chat_callback (some (.obj th resp suggs cidArg)) t).currentConversation
                = t.currentConversation ∧
            (UnaryUI.chat_callback (some (.obj th resp suggs cidArg)) t).sidebarRefreshes
                = t.sidebarRefreshes)) :=
  ⟨fun d s h => update_end_of_stream d s h,
   fun d s cid h => update_record_id d s cid h,
   fun t th resp suggs cidArg cid h => callback_record_id t th resp suggs cidArg cid h⟩

/-- C7 witness: a concrete end-of-stream event carrying a first
conversation id clears the streaming state and records the id. -/
theorem c7_end_stream_and_conversation_id_witness :
    ((⟨some "CON-00001", none, true⟩ : StreamUI.StreamEvent).end_of_stream = true ∧
      (StreamUI.gemini_chat_update ⟨some "CON-00001", none, true⟩
        StreamUI.init).streamingBubble = none) ∧
    (truthy (some "CON-00001") = some "CON-00001" ∧
      (StreamUI.gemini_chat_update ⟨some "CON-00001", none, true⟩
        StreamUI.init).currentConversation = some "CON-00001") :=
  ⟨⟨rfl, (c7_end_stream_and_conversation_id.1 ⟨some "CON-00001", none, true⟩
      StreamUI.init rfl).2.2⟩,
   ⟨by decide, ((c7_end_stream_and_conversation_id.2.1 ⟨some "CON-00001", none, true⟩
      StreamUI.init "CON-00001" (by decide)).1 rfl).1⟩⟩

theorem unary_load_fold (fetched : List Msg) :
    ∀ (s : UnaryUI.State), (∀ m ∈ fetched, m.role ≠ "thoughts") →
      (fetched.foldl (fun st m => UnaryUI.add_to_history m.role m.text st) s).conversation
          = s.conversation ++ fetched ∧
      (fetched.foldl (fun st m => UnaryUI.add_to_history m.role m.text st) s).transcript
          = s.transcript ++ fetched.map (fun m => .bubble m.role m.text) ∧
      (fetched.foldl (fun st m => UnaryUI.add_to_history m.role m.text st) s).currentConversation
          = s.currentConversation := by
  induction fetched with
  | nil => intro s _; simp
  | cons m ms ih =>
      intro s h
      have hm : m.role ≠ "thoughts" := h m (List.mem_cons_self m ms)
      have hms : ∀ x ∈ ms, x.role ≠ "thoughts" := fun x hx => h x (List.mem_cons_of_mem m hx)
      obtain ⟨g1, g2, g3⟩ := ih (UnaryUI.add_to_history m.role m.text s) hms
      rw [List.foldl_cons]
      refine ⟨?_, ?_, ?_⟩
      · rw [g1]
        simp only [UnaryUI.add_to_history, if_neg hm, List.append_assoc,
          List.singleton_append]
      · rw [g2]
        simp [UnaryUI.add_to_history, List.append_assoc]
      · rw [g3]
        simp [UnaryUI.add_to_history]

/-- C8 counterexample: the load_conversation callback of part_003 does
not leave the in-memory array equal to the fetched log: assigning the
parsed log and then re-rendering each entry through add_to_history
pushes every message a second time, so loading a one-message log
leaves a two-element array. -/
theorem c8_counterexample :
    (UnaryUI.load_conversation_cb "CON-00001" [⟨"user", "hi"⟩] UnaryUI.init).conversation
      ≠ [⟨"user", "hi"⟩] := by decide

/-- C8 amended: loadConversation marks the id active and re-renders
the transcript from scratch in log order, but the in-memory array ends
as the fetched log concatenated with itself (the render loop pushes
every entry again); the outcome depends only on the fetched data, so
two consecutive calls with the same response leave an identical
transcript and an identical conversation array after each call. -/
theorem c8_load_idempotent (name : String) (fetched : List Msg) (s : UnaryUI.State)
    (h : ∀ m ∈ fetched, m.role ≠ "thoughts") :
    (UnaryUI.load_conversation_cb name fetched s).currentConversation = some name ∧
    (UnaryUI.load_conversation_cb name fetched s).transcript
        = fetched.map (fun m => .bubble m.role m.text) ∧
    (UnaryUI.load_conversation_cb name fetched s).conversation = fetched ++ fetched ∧
    (UnaryUI.load_conversation_cb name fetched
        (UnaryUI.load_conversation_cb name fetched s)).transcript
      = (UnaryUI.load_conversation_cb name fetched s).transcript ∧
    (UnaryUI.load_conversation_cb name fetched
        (UnaryUI.load_conversation_cb name fetched s)).conversation
      = (UnaryUI.load_conversation_cb name fetched s).conversation := by
  have key : ∀ (t : UnaryUI.State),
      (UnaryUI.load_conversation_cb name fetched t).currentConversation = some name ∧
      (UnaryUI.load_conversation_cb name fetched t).transcript
          = fetched.map (fun m => .bubble m.role m.text) ∧
      (UnaryUI.load_conversation_cb name fetched t).conversation = fetched ++ fetched := by
    intro t
    obtain ⟨g1, g2, g3⟩ := unary_load_fold fetched
      { t with currentConversation := some name, transcript := []
               greetingShown := false, conversation := fetched } h
    refine ⟨?_, ?_, ?_⟩ <;> simp [UnaryUI.load_conversation_cb, g1, g2, g3]
  obtain ⟨k1, k2, k3⟩ := key s
  obtain ⟨l1, l2, l3⟩ := key (UnaryUI.load_conversation_cb name fetched s)
  exact ⟨k1, k2, k3, by rw [l2, k2], by rw [l3, k3]⟩

/-- C8 witness: loading a concrete two-message log is idempotent on
the transcript and on the (doubled) conversation array. -/
theorem c8_load_idempotent_witness :
    (∀ m ∈ ([⟨"user", "hi"⟩, ⟨"gemini", "yo"⟩] : List Msg), m.role ≠ "thoughts") ∧
    (UnaryUI.load_conversation_cb "CON-00001" [⟨"user", "hi"⟩, ⟨"gemini", "yo"⟩]
        UnaryUI.init).conversation
      = [⟨"user", "hi"⟩, ⟨"gemini", "yo"⟩] ++ [⟨"user", "hi"⟩, ⟨"gemini", "yo"⟩] :=
  ⟨by decide,
    (c8_load_idempotent "CON-00001" [⟨"user", "hi"⟩, ⟨"gemini", "yo"⟩] UnaryUI.init
      (by decide)).2.2.1⟩

/-- C4: a unary response whose suggestions list is non-empty renders
one clarification container (intro plus the label/url list) instead of
a normal assistant bubble, and leaves the in-memory conversation array
unchanged whatever the thoughts and conversation_id fields hold. -/
theorem c4_clarification_leaves_log (s : UnaryUI.State) (resp : String)
    (suggs : List UnaryUI.Suggestion) (cid : Option String) (th : Option String)
    (hs : suggs ≠ []) :
    (UnaryUI.chat_callback (some (.obj th resp suggs cid)) s).conversation
        = s.conversation ∧
    (UnaryUI.chat_callback (some (.obj none resp suggs cid)) s).transcript
        = s.transcript
          ++ [.clarification resp (suggs.map fun o => ⟨UnaryUI.clarLabel o, o.url⟩)] := by
  have hl : 0 < suggs.length := List.length_pos.mpr hs
  constructor
  · simp only [UnaryUI.chat_callback]
    cases htr : truthy th <;> cases htc : truthy cid <;>
      simp [hl, UnaryUI.add_to_history, UnaryUI.render_clarification_options] <;>
      (try split) <;>
      simp [UnaryUI.add_to_history, UnaryUI.render_clarification_options]
  · simp only [UnaryUI.chat_callback]
    cases htc : truthy cid <;>
      simp [hl, UnaryUI.add_to_history, UnaryUI.render_clarification_options] <;>
      (try split) <;>
      simp [UnaryUI.add_to_history, UnaryUI.render_clarification_options]

/-- C4 witness: a concrete clarification response leaves the array
unchanged and renders the listed option. -/
theorem c4_clarification_leaves_log_witness :
    (([⟨some "A", "Customer", "C-1", "#"⟩] : List UnaryUI.Suggestion) ≠ []) ∧
    (UnaryUI.chat_callback
        (some (.obj none "Pick one" [⟨some "A", "Customer", "C-1", "#"⟩] none))
        UnaryUI.init).conversation
      = UnaryUI.init.conversation :=
  ⟨by decide,
    (c4_clarification_leaves_log UnaryUI.init "Pick one"
      [⟨some "A", "Customer", "C-1", "#"⟩] none none (by decide)).1⟩

theorem send_roles (p : Option String) (s : UnaryUI.State)
    (hs : ∀ m ∈ s.conversation, persistedRole m) :
    ∀ m ∈ (UnaryUI.send_message p s).conversation, persistedRole m := by
  intro m hm
  simp only [UnaryUI.send_message] at hm
  split at hm
  · exact hs m hm
  · simp [UnaryUI.add_to_history] at hm
    rcases hm with hm | hm
    · exact hs m hm
    · simp [persistedRole, hm]

theorem chat_error_roles (r : Option UnaryUI.ErrInfo) (s : UnaryUI.State)
    (hs : ∀ m ∈ s.conversation, persistedRole m) :
    ∀ m ∈ (UnaryUI.chat_error r s).conversation, persistedRole m := by
  intro m hm
  simp [UnaryUI.chat_error, UnaryUI.add_to_history] at hm
  rcases hm with hm | hm
  · exact hs m hm
  · simp [persistedRole, hm]

theorem chat_callback_conv_shape (r : Option UnaryUI.ChatResult) (s : UnaryUI.State) :
    (UnaryUI.chat_callback r s).conversation = s.conversation ∨
    ∃ txt, (UnaryUI.chat_callback r s).conversation
        = s.conversation ++ [Msg.mk "gemini" txt] := by
  cases r with
  | none =>
      right
      exact ⟨"Sorry, I received an empty response. Please try again.",
        by simp [UnaryUI.chat_callback, UnaryUI.add_to_history]⟩
  | some res =>
      cases res with
      | str t =>
          by_cases ht : t = ""
          · right
            exact ⟨"Sorry, I received an empty response. Please try again.",
              by simp [UnaryUI.chat_callback, ht, UnaryUI.add_to_history]⟩
          · right
            exact ⟨t, by simp [UnaryUI.chat_callback, ht, UnaryUI.add_to_history]⟩
      | obj th resp suggs cid =>
          by_cases hl : 0 < suggs.length
          · left
            simp only [UnaryUI.chat_callback]
            cases htr : truthy th <;> cases htc : truthy cid <;>
              simp [hl, UnaryUI.add_to_history,
                UnaryUI.render_clarification_options] <;>
              (try split) <;>
              simp [UnaryUI.add_to_history, UnaryUI.render_clarification_options]
          · right
            refine ⟨resp, ?_⟩
            simp only [UnaryUI.chat_callback]
            cases htr : truthy th <;> cases htc : truthy cid <;>
              simp [hl, UnaryUI.add_to_history,
                UnaryUI.render_clarification_options] <;>
              (try split) <;>
              simp [UnaryUI.add_to_history, UnaryUI.render_clarification_options]

theorem chat_callback_roles (r : Option UnaryUI.ChatResult) (s : UnaryUI.State)
    (hs : ∀ m ∈ s.conversation, persistedRole m) :
    ∀ m ∈ (UnaryUI.chat_callback r s).conversation, persistedRole m := by
  intro m hm
  rcases chat_callback_conv_shape r s with k | ⟨txt, k⟩ <;> rw [k] at hm
  · exact hs m hm
  · rcases List.mem_append.mp hm with h | h
    · exact hs m h
    · rw [List.mem_singleton.mp h]; exact Or.inr rfl

theorem load_roles (n : String) (f : List Msg) (s : UnaryUI.State)
    (hf : ∀ m ∈ f, persistedRole m) :
    ∀ m ∈ (UnaryUI.load_conversation_cb n f s).conversation, persistedRole m := by
  have hnt : ∀ m ∈ f, m.role ≠ "thoughts" := by
    intro m hm
    rcases hf m hm with h | h <;> rw [h] <;> decide
  obtain ⟨g1, g2, g3⟩ := unary_load_fold f
    { s with currentConversation := some n, transcript := []
             greetingShown := false, conversation := f } hnt
  intro m hm
  simp only [UnaryUI.load_conversation_cb] at hm
  rw [g1] at hm
  simp only [List.mem_append, or_self] at hm
  exact hf m hm

theorem step_preserves_roles (e : UnaryUI.Event) (s : UnaryUI.State)
    (hs : ∀ m ∈ s.conversation, persistedRole m) (he : eventOk e) :
    ∀ m ∈ (UnaryUI.step e s).conversation, persistedRole m := by
  cases e with
  | send p => exact send_roles p s hs
  | callback r => exact chat_callback_roles r s hs
  | failure r => exact chat_error_roles r s hs
  | load n f => exact load_roles n f s he
  | newChat => intro m hm; simp [UnaryUI.step, UnaryUI.new_chat] at hm

theorem run_preserves_roles (es : List UnaryUI.Event) :
    ∀ (s : UnaryUI.State), (∀ m ∈ s.conversation, persistedRole m) →
      (∀ e ∈ es, eventOk e) →
      ∀ m ∈ (UnaryUI.run es s).conversation, persistedRole m := by
  induction es with
  | nil => intro s hs _; exact hs
  | cons e es ih =>
      intro s hs hes
      exact ih (UnaryUI.step e s)
        (step_preserves_roles e s hs (hes e (List.mem_cons_self e es)))
        (fun x hx => hes x (List.mem_cons_of_mem e hx))

/-- C3: over any whole session of the part_003 page (sends, responses,
failures, loads of persisted logs, new chats) the conversation array
never contains a thought entry: every entry carries the user or gemini
role, so anything persisted from it holds only user and assistant
messages; and the src/page variant pushes nothing for any role other
than user and gemini. -/
theorem c3_thoughts_never_persisted (es : List UnaryUI.Event) (s : UnaryUI.State)
    (hs : ∀ m ∈ s.conversation, persistedRole m) (hes : ∀ e ∈ es, eventOk e) :
    (∀ m ∈ (UnaryUI.run es s).conversation, persistedRole m) ∧
    (∀ (role text : String) (t : PageUI.State), role ≠ "user" → role ≠ "gemini" →
        (PageUI.add_to_history role text t).conversation = t.conversation) := by
  refine ⟨run_preserves_roles es s hs hes, ?_⟩
  intro role text t h1 h2
  simp [PageUI.add_to_history, h1, h2]

/-- C3 witness: a session with a send and a thoughts-bearing response
leaves only user and gemini entries in the array. -/
theorem c3_thoughts_never_persisted_witness :
    (∀ m ∈ UnaryUI.init.conversation, persistedRole m) ∧
    (∀ e ∈ ([.send (some "hi"),
             .callback (some (.obj (some "thinking") "answer" [] none))] :
              List UnaryUI.Event), eventOk e) ∧
    (∀ m ∈ (UnaryUI.run
          [.send (some "hi"),
           .callback (some (.obj (some "thinking") "answer" [] none))]
          UnaryUI.init).conversation, persistedRole m) := by
  have h1 : ∀ m ∈ UnaryUI.init.conversation, persistedRole m := by
    intro m hm; simp [UnaryUI.init] at hm
  have h2 : ∀ e ∈ ([.send (some "hi"),
      .callback (some (.obj (some "thinking") "answer" [] none))] :
        List UnaryUI.Event), eventOk e := by
    intro e he
    rcases List.mem_cons.mp he with h | h
    · rw [h]; trivial
    · rw [List.mem_singleton.mp h]; trivial
  exact ⟨h1, h2,
    (c3_thoughts_never_persisted
      [.send (some "hi"),
       .callback (some (.obj (some "thinking") "answer" [] none))]
      UnaryUI.init h1 h2).1⟩

/-- C5 witness: the amended statement holds for the reason Timeout. -/
theorem c5_error_bubble_witness :
    ("Timeout" : String) ≠ "" ∧
    (UnaryUI.chat_error (some ⟨some "Timeout", none⟩)
        (UnaryUI.send_message (some "hi") UnaryUI.init)).conversation
      = (UnaryUI.send_message (some "hi") UnaryUI.init).conversation
          ++ [⟨"gemini", "Error: " ++ UnaryUI.escape_html "Timeout"⟩] :=
  ⟨by decide,
    (c5_error_bubble (UnaryUI.send_message (some "hi") UnaryUI.init) "Timeout"
      StreamUI.init (by decide)).2.1⟩

end GeminiChat
